import Mathlib

/-!
Shallow embedding of `src/image-zoom/image-zoom.component.tsx`
(react-native-image-zoom): the gesture classifier, transform state
machine and settle controller of the `ImageViewer` component.

Numbers are modelled as rationals.  Timers (`setTimeout`/`clearTimeout`
handles) are modelled as Booleans recording whether the timer is armed.
Calls `animatedX.setValue(v)` and `Animated.timing(animatedX, {toValue: v})
.start()` are both modelled as writing `v` to the mirrored animated field
(the tween collaborator is external; we record its target).  Optional
callbacks are modelled by Boolean `has…` props plus, where a claim needs
it, a Boolean "fired" output.
-/

namespace ImageZoom

/-- One touch point of a native event (`pageX/pageY/locationX/locationY`). -/
structure Touch where
  pageX : ℚ
  pageY : ℚ
  locationX : ℚ
  locationY : ℚ
deriving DecidableEq

/-- The props of `ImageViewer` that the gesture logic reads
(`ImageZoomProps`).  `hasOnSwipeDown` records whether the optional
`onSwipeDown` callback was supplied. -/
structure ImageZoomProps where
  cropWidth : ℚ
  cropHeight : ℚ
  imageWidth : ℚ
  imageHeight : ℚ
  panToMove : Bool
  pinchToZoom : Bool
  enableSwipeDown : Bool
  enableCenterFocus : Bool
  enableDoubleClickZoom : Bool
  swipeDownThreshold : ℚ
  maxOverflow : ℚ
  minScale : ℚ
  maxScale : ℚ
  clickDistance : ℚ
  doubleClickInterval : ℚ
  hasOnSwipeDown : Bool
deriving DecidableEq

/-- The mutable instance fields of `ImageViewer` that the gesture logic
reads and writes. -/
structure State where
  lastPositionX : Option ℚ
  lastPositionY : Option ℚ
  positionX : ℚ
  positionY : ℚ
  animatedPositionX : ℚ
  animatedPositionY : ℚ
  scale : ℚ
  animatedScale : ℚ
  zoomLastDistance : Option ℚ
  zoomCurrentDistance : ℚ
  lastTouchStartTime : ℚ
  horizontalWholeOuterCounter : ℚ
  swipeDownOffset : ℚ
  horizontalWholeCounter : ℚ
  verticalWholeCounter : ℚ
  centerDiffX : ℚ
  centerDiffY : ℚ
  lastClickTime : ℚ
  doubleClickX : ℚ
  doubleClickY : ℚ
  isDoubleClick : Bool
  isLongPress : Bool
  isHorizontalWrap : Bool
  longPressPending : Bool
  singleClickPending : Bool
deriving DecidableEq

/-- A state with every counter at zero and the identity transform. -/
def baseState : State where
  lastPositionX := none
  lastPositionY := none
  positionX := 0
  positionY := 0
  animatedPositionX := 0
  animatedPositionY := 0
  scale := 1
  animatedScale := 1
  zoomLastDistance := none
  zoomCurrentDistance := 0
  lastTouchStartTime := 0
  horizontalWholeOuterCounter := 0
  swipeDownOffset := 0
  horizontalWholeCounter := 0
  verticalWholeCounter := 0
  centerDiffX := 0
  centerDiffY := 0
  lastClickTime := 0
  doubleClickX := 0
  doubleClickY := 0
  isDoubleClick := false
  isLongPress := false
  isHorizontalWrap := false
  longPressPending := false
  singleClickPending := false

/-- A sample prop assignment used for concrete evaluations. -/
def props0 : ImageZoomProps where
  cropWidth := 300
  cropHeight := 300
  imageWidth := 200
  imageHeight := 200
  panToMove := true
  pinchToZoom := true
  enableSwipeDown := false
  enableCenterFocus := false
  enableDoubleClickZoom := true
  swipeDownThreshold := 0
  maxOverflow := 100
  minScale := 3/5
  maxScale := 10
  clickDistance := 10
  doubleClickInterval := 175
  hasOnSwipeDown := false

/-- `diffX` of a single-touch move: the incremental x displacement since
the previous move (`gestureState.dx - lastPositionX`), 0 on the first
move of the gesture (`lastPositionX === null`). -/
def diffXOf (s : State) (dx : ℚ) : ℚ :=
  match s.lastPositionX with
  | none => 0
  | some lx => dx - lx

/-- `diffY` of a single-touch move, symmetric to `diffXOf`. -/
def diffYOf (s : State) (dy : ℚ) : ℚ :=
  match s.lastPositionY with
  | none => 0
  | some ly => dy - ly

/-- The rubber-band absorption step of the horizontal pan (source lines
226-268): given the current overflow counter and the incoming `diffX`,
returns the updated counter and the remaining `diffX` that is applied as
a real offset change. -/
def horizontalOverflowAbsorb (hwoc diffX : ℚ) : ℚ × ℚ :=
  if hwoc > 0 then
    if diffX < 0 then
      if hwoc > |diffX| then (hwoc + diffX, 0)
      else (0, diffX + hwoc)
    else (hwoc + diffX, diffX)
  else if hwoc < 0 then
    if diffX > 0 then
      if |hwoc| > diffX then (hwoc + diffX, 0)
      else (0, diffX + hwoc)
    else (hwoc + diffX, diffX)
  else (hwoc, diffX)

/-- The cap of the overflow counter to `±maxOverflow` (source lines
296-300). -/
def clampOverflowValue (p : ImageZoomProps) (c : ℚ) : ℚ :=
  if c > p.maxOverflow then p.maxOverflow
  else if c < -p.maxOverflow then -p.maxOverflow
  else c

/-- The horizontal part of a single-touch pan (source lines 223-300):
overflow absorption, real offset update, hard clamp with the `±1/1e10`
nudge of the overflow counter, and the final overflow cap.  When the
scaled image does not exceed the crop width the whole delta counts as
overflow. -/
def horizontalPan (p : ImageZoomProps) (s : State) (diffX : ℚ) : State :=
  if p.imageWidth * s.scale > p.cropWidth then
    let r := horizontalOverflowAbsorb s.horizontalWholeOuterCounter diffX
    let px0 := s.positionX + r.2 / s.scale
    let horizontalMax := (p.imageWidth * s.scale - p.cropWidth) / 2 / s.scale
    let px := if px0 < -horizontalMax then -horizontalMax
              else if px0 > horizontalMax then horizontalMax
              else px0
    let hwoc := if px0 < -horizontalMax then r.1 + (-1 / 10000000000)
                else if px0 > horizontalMax then r.1 + 1 / 10000000000
                else r.1
    { s with positionX := px, animatedPositionX := px,
             horizontalWholeOuterCounter := clampOverflowValue p hwoc }
  else
    { s with horizontalWholeOuterCounter :=
        clampOverflowValue p (s.horizontalWholeOuterCounter + diffX) }

/-- The vertical part of a single-touch pan (source lines 311-350): free
vertical drag when the scaled image exceeds the crop height, otherwise
the swipe-down accumulation branch (gated on `enableSwipeDown` and
`!isHorizontalWrap`) with proportional offset and scale shrink once the
accumulated swipe-down offset is positive. -/
def verticalPan (p : ImageZoomProps) (s : State) (diffY : ℚ) : State :=
  if p.imageHeight * s.scale > p.cropHeight then
    let py := s.positionY + diffY / s.scale
    { s with positionY := py, animatedPositionY := py }
  else
    if p.enableSwipeDown && !s.isHorizontalWrap then
      if s.swipeDownOffset + diffY > 0 then
        let py := s.positionY + diffY / s.scale
        let sc := s.scale - diffY / 1000
        { s with swipeDownOffset := s.swipeDownOffset + diffY,
                 positionY := py, animatedPositionY := py,
                 scale := sc, animatedScale := sc }
      else { s with swipeDownOffset := s.swipeDownOffset + diffY }
    else s

/-- The bookkeeping prefix of a single-touch move (source lines 190-212):
records the raw deltas as the new previous displacement, accumulates the
whole-motion counters and cancels the long-press timer once either
counter passes 5. -/
def moveAccum (s : State) (dx dy : ℚ) : State :=
  let diffX := diffXOf s dx
  let diffY := diffYOf s dy
  let s1 := { s with lastPositionX := some dx, lastPositionY := some dy,
                     horizontalWholeCounter := s.horizontalWholeCounter + diffX,
                     verticalWholeCounter := s.verticalWholeCounter + diffY }
  if |s1.horizontalWholeCounter| > 5 ∨ |s1.verticalWholeCounter| > 5
  then { s1 with longPressPending := false } else s1

/-- The `panToMove` body of a single-touch move (source lines 215-350):
when no swipe-down offset is pending, the horizontal-wrap flagging
(`|dx| > |dy|`) and the horizontal pan; then the vertical pan. -/
def panPhase (p : ImageZoomProps) (s : State) (diffX diffY : ℚ) : State :=
  let s3 :=
    if s.swipeDownOffset = 0 then
      let sa := if |diffX| > |diffY| then { s with isHorizontalWrap := true } else s
      horizontalPan p sa diffX
    else s
  verticalPan p s3 diffY

/-- The single-touch branch of `onPanResponderMove` (source lines
185-351): no-op on a double click, the bookkeeping prefix, and the pan
phase under `panToMove`. -/
def onPanResponderMoveSingle (p : ImageZoomProps) (s : State) (dx dy : ℚ) : State :=
  if s.isDoubleClick then s else
  let s2 := moveAccum s dx dy
  if p.panToMove then panPhase p s2 (diffXOf s dx) (diffYOf s dy) else s2

/-- The multi-touch (pinch) branch of `onPanResponderMove` (source lines
352-415).  The two-finger span (Euclidean distance of the touches,
rounded to 0.1 by `toFixed(1)`) is passed in as `dist`; the branch
cancels the long press, and when a previous span is recorded converts
`(dist - zoomLastDistance)/200` into a scale delta, clamps the scale
(raise to `minScale`, then cap at `maxScale`) and moves the offset so the
zoom is anchored at the recorded pinch center. -/
def onPanResponderMovePinch (p : ImageZoomProps) (s : State) (dist : ℚ) : State :=
  if s.isDoubleClick then s else
  let s0 := { s with longPressPending := false }
  if p.pinchToZoom then
    let s1 := { s0 with zoomCurrentDistance := dist }
    match s1.zoomLastDistance with
    | none => { s1 with zoomLastDistance := some s1.zoomCurrentDistance }
    | some lastDistance =>
      let distanceDiff := (s1.zoomCurrentDistance - lastDistance) / 200
      let zoom0 := s1.scale + distanceDiff
      let zoom1 := if zoom0 < p.minScale then p.minScale else zoom0
      let zoom := if zoom1 > p.maxScale then p.maxScale else zoom1
      let beforeScale := s1.scale
      let diffScale := zoom - beforeScale
      let px := s1.positionX - s1.centerDiffX * diffScale / zoom
      let py := s1.positionY - s1.centerDiffY * diffScale / zoom
      { s1 with scale := zoom, animatedScale := zoom,
                positionX := px, positionY := py,
                animatedPositionX := px, animatedPositionY := py,
                zoomLastDistance := some s1.zoomCurrentDistance }
  else s0

/-- The double-click-zoom toggle embedded in `onPanResponderGrant`
(source lines 134-177), run when a double click is detected and
`enableDoubleClickZoom` is set: scale ≠ 1 resets to the identity
transform, scale = 1 zooms to factor 2 anchored at the recorded
double-click point; the animated values are tweened to the new targets. -/
def doubleClickZoomToggle (p : ImageZoomProps) (s : State) : State :=
  if s.scale > 1 ∨ s.scale < 1 then
    { s with scale := 1, positionX := 0, positionY := 0,
             animatedScale := 1, animatedPositionX := 0, animatedPositionY := 0 }
  else
    let beforeScale := s.scale
    let newScale : ℚ := 2
    let diffScale := newScale - beforeScale
    let px := (p.cropWidth / 2 - s.doubleClickX) * diffScale / newScale
    let py := (p.cropHeight / 2 - s.doubleClickY) * diffScale / newScale
    { s with scale := newScale, positionX := px, positionY := py,
             animatedScale := newScale, animatedPositionX := px, animatedPositionY := py }

/-- `onPanResponderGrant` (source lines 72-183): per-gesture reset of the
classifier session, pinch-center recording for multi-touch, long-press
arming, and single-touch double-click detection against
`lastClickTime`/`doubleClickInterval`, triggering the zoom toggle when
`enableDoubleClickZoom` is set.  `touches` is `evt.nativeEvent.changedTouches`
and `now` the current clock (`new Date().getTime()`). -/
def onPanResponderGrant (p : ImageZoomProps) (s : State) (touches : List Touch)
    (now : ℚ) : State :=
  let s0 := { s with lastPositionX := none, lastPositionY := none,
                     zoomLastDistance := none,
                     horizontalWholeCounter := 0, verticalWholeCounter := 0,
                     lastTouchStartTime := now,
                     isDoubleClick := false, isLongPress := false,
                     isHorizontalWrap := false,
                     singleClickPending := false }
  let t0 := touches.getD 0 ⟨0, 0, 0, 0⟩
  let t1 := touches.getD 1 ⟨0, 0, 0, 0⟩
  let s1 := if touches.length > 1 then
      { s0 with centerDiffX := (t0.pageX + t1.pageX) / 2 - p.cropWidth / 2,
                centerDiffY := (t0.pageY + t1.pageY) / 2 - p.cropHeight / 2 }
    else s0
  let s2 := { s1 with longPressPending := true }
  if touches.length ≤ 1 then
    if now - s2.lastClickTime < p.doubleClickInterval then
      let s3 := { s2 with lastClickTime := 0,
                          doubleClickX := t0.pageX, doubleClickY := t0.pageY,
                          longPressPending := false,
                          isDoubleClick := true }
      if p.enableDoubleClickZoom then doubleClickZoomToggle p s3 else s3
    else { s2 with lastClickTime := now }
  else s2

/-- The condition of the early-return swipe-down dismiss branch of
`panResponderReleaseResolve` (source lines 470-477): swipe-down enabled,
a truthy `swipeDownThreshold`, and the accumulated swipe-down offset
strictly above the threshold. -/
def swipeDownDismissCond (p : ImageZoomProps) (s : State) : Bool :=
  p.enableSwipeDown && decide (p.swipeDownThreshold ≠ 0)
    && decide (s.swipeDownOffset > p.swipeDownThreshold)

/-- Result of the release settle: the final state together with whether
the `onSwipeDown` callback was invoked. -/
structure ReleaseResult where
  state : State
  firedSwipeDown : Bool
deriving DecidableEq

/-- `panResponderReleaseResolve` (source lines 468-565): the settle
controller.  The swipe-down dismiss branch fires the callback (when
supplied) and returns early; otherwise center-focus scale restore, the
fit-axis recenters, the vertical and horizontal hard clamps, the
center-focus full recenter at scale 1, and the final zeroing of both
overflow counters are applied in source order. -/
def panResponderReleaseResolve (p : ImageZoomProps) (s : State) : ReleaseResult :=
  if swipeDownDismissCond p s then
    { state := s, firedSwipeDown := p.hasOnSwipeDown }
  else
  let s1 := if p.enableCenterFocus && decide (s.scale < 1)
            then { s with scale := 1, animatedScale := 1 } else s
  let s2 := if p.imageWidth * s1.scale ≤ p.cropWidth
            then { s1 with positionX := 0, animatedPositionX := 0 } else s1
  let s3 := if p.imageHeight * s2.scale ≤ p.cropHeight
            then { s2 with positionY := 0, animatedPositionY := 0 } else s2
  let s4 := if p.imageHeight * s3.scale > p.cropHeight then
              let verticalMax := (p.imageHeight * s3.scale - p.cropHeight) / 2 / s3.scale
              let py := if s3.positionY < -verticalMax then -verticalMax
                        else if s3.positionY > verticalMax then verticalMax
                        else s3.positionY
              { s3 with positionY := py, animatedPositionY := py }
            else s3
  let s5 := if p.imageWidth * s4.scale > p.cropWidth then
              let horizontalMax := (p.imageWidth * s4.scale - p.cropWidth) / 2 / s4.scale
              let px := if s4.positionX < -horizontalMax then -horizontalMax
                        else if s4.positionX > horizontalMax then horizontalMax
                        else s4.positionX
              { s4 with positionX := px, animatedPositionX := px }
            else s4
  let s6 := if p.enableCenterFocus && decide (s5.scale = 1) then
              { s5 with positionX := 0, positionY := 0,
                        animatedPositionX := 0, animatedPositionY := 0 }
            else s5
  { state := { s6 with horizontalWholeOuterCounter := 0, swipeDownOffset := 0 },
    firedSwipeDown := false }

/-- `resetScale` (source lines 461-466): zeroes the live offsets, resets
the live scale and writes 1 to the animated scale; the animated offsets
are not touched. -/
def resetScale (s : State) : State :=
  { s with positionX := 0, positionY := 0, scale := 1, animatedScale := 1 }

/-- `reset` (source lines 640-647): resets scale and both offsets and
synchronises all three animated values. -/
def reset (s : State) : State :=
  { s with scale := 1, animatedScale := 1,
           positionX := 0, animatedPositionX := 0,
           positionY := 0, animatedPositionY := 0 }

/-- The `centerOn` parameter record (`ICenterOn`). -/
structure ICenterOn where
  x : ℚ
  y : ℚ
  scale : ℚ
  duration : ℚ
deriving DecidableEq

/-- `didCenterOnChange` (source lines 595-600): two consecutive
`centerOn` prop values count as different when `x`, `y` or `scale`
differ (`duration` is not compared). -/
def didCenterOnChange (params paramsNext : ICenterOn) : Bool :=
  decide (params.x ≠ paramsNext.x) || decide (params.y ≠ paramsNext.y)
    || decide (params.scale ≠ paramsNext.scale)

/-- The guard of `componentDidUpdate` (source lines 573-581): `centerOn`
is re-issued when the prop appears, or when it was present before and
`didCenterOnChange` reports a change. -/
def componentDidUpdateCallsCenterOn (prevCenterOn currentCenterOn : Option ICenterOn) :
    Bool :=
  match prevCenterOn, currentCenterOn with
  | none, some _ => true
  | some prev, some cur => didCenterOnChange prev cur
  | _, none => false

/-! ## Helper lemmas -/

theorem horizontalPan_swipeDownOffset (p : ImageZoomProps) (s : State) (d : ℚ) :
    (horizontalPan p s d).swipeDownOffset = s.swipeDownOffset := by
  unfold horizontalPan
  split_ifs <;> rfl

theorem horizontalPan_scale (p : ImageZoomProps) (s : State) (d : ℚ) :
    (horizontalPan p s d).scale = s.scale := by
  unfold horizontalPan
  split_ifs <;> rfl

theorem horizontalPan_isHorizontalWrap (p : ImageZoomProps) (s : State) (d : ℚ) :
    (horizontalPan p s d).isHorizontalWrap = s.isHorizontalWrap := by
  unfold horizontalPan
  split_ifs <;> rfl

theorem horizontalPan_longPressPending (p : ImageZoomProps) (s : State) (d : ℚ) :
    (horizontalPan p s d).longPressPending = s.longPressPending := by
  unfold horizontalPan
  split_ifs <;> rfl

theorem verticalPan_horizontalWholeOuterCounter (p : ImageZoomProps) (s : State) (d : ℚ) :
    (verticalPan p s d).horizontalWholeOuterCounter = s.horizontalWholeOuterCounter := by
  unfold verticalPan
  split_ifs <;> rfl

theorem verticalPan_isHorizontalWrap (p : ImageZoomProps) (s : State) (d : ℚ) :
    (verticalPan p s d).isHorizontalWrap = s.isHorizontalWrap := by
  unfold verticalPan
  split_ifs <;> rfl

theorem verticalPan_longPressPending (p : ImageZoomProps) (s : State) (d : ℚ) :
    (verticalPan p s d).longPressPending = s.longPressPending := by
  unfold verticalPan
  split_ifs <;> rfl

theorem verticalPan_swipeDownOffset_change (p : ImageZoomProps) (s : State) (d : ℚ)
    (h : (verticalPan p s d).swipeDownOffset ≠ s.swipeDownOffset) :
    p.imageHeight * s.scale ≤ p.cropHeight ∧ p.enableSwipeDown = true ∧
      s.isHorizontalWrap = false := by
  unfold verticalPan at h
  split_ifs at h with h1 h2 h3
  · exact absurd rfl h
  · rw [Bool.and_eq_true, Bool.not_eq_true'] at h2
    exact ⟨le_of_not_lt h1, h2.1, h2.2⟩
  · rw [Bool.and_eq_true, Bool.not_eq_true'] at h2
    exact ⟨le_of_not_lt h1, h2.1, h2.2⟩
  · exact absurd rfl h

theorem moveAccum_horizontalWholeOuterCounter (s : State) (dx dy : ℚ) :
    (moveAccum s dx dy).horizontalWholeOuterCounter = s.horizontalWholeOuterCounter := by
  simp only [moveAccum]
  split_ifs <;> rfl

theorem moveAccum_swipeDownOffset (s : State) (dx dy : ℚ) :
    (moveAccum s dx dy).swipeDownOffset = s.swipeDownOffset := by
  simp only [moveAccum]
  split_ifs <;> rfl

theorem moveAccum_scale (s : State) (dx dy : ℚ) :
    (moveAccum s dx dy).scale = s.scale := by
  simp only [moveAccum]
  split_ifs <;> rfl

theorem moveAccum_isHorizontalWrap (s : State) (dx dy : ℚ) :
    (moveAccum s dx dy).isHorizontalWrap = s.isHorizontalWrap := by
  simp only [moveAccum]
  split_ifs <;> rfl

theorem moveAccum_longPressPending_cancel (s : State) (dx dy : ℚ)
    (h : |s.horizontalWholeCounter + diffXOf s dx| > 5 ∨
         |s.verticalWholeCounter + diffYOf s dy| > 5) :
    (moveAccum s dx dy).longPressPending = false := by
  simp only [moveAccum]
  rw [if_pos h]

theorem clampOverflowValue_abs_le (p : ImageZoomProps) (c : ℚ)
    (hM : 0 ≤ p.maxOverflow) : |clampOverflowValue p c| ≤ p.maxOverflow := by
  unfold clampOverflowValue
  split_ifs with h1 h2
  · rw [abs_of_nonneg hM]
  · rw [abs_neg, abs_of_nonneg hM]
  · rw [abs_le]
    exact ⟨by linarith, by linarith⟩

theorem horizontalPan_overflow_abs_le (p : ImageZoomProps) (s : State) (d : ℚ)
    (hM : 0 ≤ p.maxOverflow) :
    |(horizontalPan p s d).horizontalWholeOuterCounter| ≤ p.maxOverflow := by
  unfold horizontalPan
  split_ifs
  · exact clampOverflowValue_abs_le p _ hM
  · exact clampOverflowValue_abs_le p _ hM

theorem panPhase_horizontalWholeOuterCounter_bound (p : ImageZoomProps) (s : State)
    (diffX diffY : ℚ) (hM : 0 ≤ p.maxOverflow)
    (hpre : |s.horizontalWholeOuterCounter| ≤ p.maxOverflow) :
    |(panPhase p s diffX diffY).horizontalWholeOuterCounter| ≤ p.maxOverflow := by
  unfold panPhase
  rw [verticalPan_horizontalWholeOuterCounter]
  split_ifs with h1 h2
  · exact horizontalPan_overflow_abs_le p _ _ hM
  · exact horizontalPan_overflow_abs_le p _ _ hM
  · exact hpre

theorem panPhase_swipeDownOffset_change (p : ImageZoomProps) (s : State)
    (diffX diffY : ℚ)
    (h : (panPhase p s diffX diffY).swipeDownOffset ≠ s.swipeDownOffset) :
    p.imageHeight * s.scale ≤ p.cropHeight ∧ p.enableSwipeDown = true ∧
      (panPhase p s diffX diffY).isHorizontalWrap = false := by
  unfold panPhase at h ⊢
  split_ifs at h ⊢ with h1 h2
  · have hXs : (horizontalPan p { s with isHorizontalWrap := true } diffX).swipeDownOffset
        = s.swipeDownOffset := horizontalPan_swipeDownOffset p _ diffX
    have key := verticalPan_swipeDownOffset_change p _ diffY (fun e => h (e.trans hXs))
    have kf := key.2.2
    rw [horizontalPan_isHorizontalWrap] at kf
    simp at kf
  · have hXs : (horizontalPan p s diffX).swipeDownOffset = s.swipeDownOffset :=
      horizontalPan_swipeDownOffset p s diffX
    have key := verticalPan_swipeDownOffset_change p _ diffY (fun e => h (e.trans hXs))
    refine ⟨?_, key.2.1, ?_⟩
    · have k1 := key.1
      rwa [horizontalPan_scale] at k1
    · rw [verticalPan_isHorizontalWrap, horizontalPan_isHorizontalWrap]
      have kf := key.2.2
      rwa [horizontalPan_isHorizontalWrap] at kf
  · have key := verticalPan_swipeDownOffset_change p s diffY h
    exact ⟨key.1, key.2.1, by rw [verticalPan_isHorizontalWrap]; exact key.2.2⟩

/-! ## C10 -/

/-- C10: `resetScale` zeroes the live offsets, sets the live scale to 1
and writes 1 to the animated scale, but leaves both animated position
values untouched, whereas `reset` synchronises all three animated
values. -/
theorem resetScale_leaves_animated_positions (s : State) :
    (resetScale s).positionX = 0 ∧ (resetScale s).positionY = 0 ∧
    (resetScale s).scale = 1 ∧ (resetScale s).animatedScale = 1 ∧
    (resetScale s).animatedPositionX = s.animatedPositionX ∧
    (resetScale s).animatedPositionY = s.animatedPositionY ∧
    (reset s).scale = 1 ∧ (reset s).animatedScale = 1 ∧
    (reset s).positionX = 0 ∧ (reset s).animatedPositionX = 0 ∧
    (reset s).positionY = 0 ∧ (reset s).animatedPositionY = 0 :=
  ⟨rfl, rfl, rfl, rfl, rfl, rfl, rfl, rfl, rfl, rfl, rfl, rfl⟩

/-! ## C9 -/

/-- C9: `didCenterOnChange` returns `false` exactly when `x`, `y` and
`scale` agree between the consecutive parameter sets, and the
`componentDidUpdate` guard re-issues `centerOn` for two present values
exactly when `didCenterOnChange` reports a change — so an identical
consecutive request is ignored. -/
theorem didCenterOnChange_false_iff_same (a b : ICenterOn) :
    (didCenterOnChange a b = false ↔ a.x = b.x ∧ a.y = b.y ∧ a.scale = b.scale) ∧
    componentDidUpdateCallsCenterOn (some a) (some b) = didCenterOnChange a b := by
  constructor
  · simp [didCenterOnChange, and_assoc]
  · rfl

/-! ## C1 -/

/-- C1 counterexample: a release with the swipe-down dismiss branch
firing (`enableSwipeDown`, threshold 50, accumulated offset 100) returns
early and leaves `swipeDownOffset` at 100, so the counters are not both
zero after this invocation of `panResponderReleaseResolve`. -/
theorem releaseResolve_dismiss_keeps_counters :
    (panResponderReleaseResolve
        { props0 with enableSwipeDown := true, swipeDownThreshold := 50,
                      hasOnSwipeDown := true }
        { baseState with swipeDownOffset := 100 }).state.swipeDownOffset ≠ 0 := by
  decide

/-- C1 amended: after `panResponderReleaseResolve`, both overflow
counters are 0 unless the swipe-down dismiss branch fired, in which case
the early return leaves both counters unchanged. -/
theorem releaseResolve_counters (p : ImageZoomProps) (s : State) :
    ((panResponderReleaseResolve p s).state.horizontalWholeOuterCounter
        = if swipeDownDismissCond p s then s.horizontalWholeOuterCounter else 0) ∧
    ((panResponderReleaseResolve p s).state.swipeDownOffset
        = if swipeDownDismissCond p s then s.swipeDownOffset else 0) := by
  by_cases h : swipeDownDismissCond p s
  · simp [panResponderReleaseResolve, h]
  · simp [panResponderReleaseResolve, h]

/-! ## C7 -/

/-- C7 counterexample: a gesture start with nonzero overflow counters
(`horizontalWholeOuterCounter = 5`, `swipeDownOffset = 3`) leaves both
counters unchanged, so `onPanResponderGrant` does not reset them to 0. -/
theorem grant_keeps_overflow_counters :
    (onPanResponderGrant props0
        { baseState with horizontalWholeOuterCounter := 5, swipeDownOffset := 3 }
        [⟨10, 10, 10, 10⟩] 1000).horizontalWholeOuterCounter ≠ 0 ∧
    (onPanResponderGrant props0
        { baseState with horizontalWholeOuterCounter := 5, swipeDownOffset := 3 }
        [⟨10, 10, 10, 10⟩] 1000).swipeDownOffset ≠ 0 := by
  norm_num [onPanResponderGrant, props0, baseState]

/-- C7 amended: `onPanResponderGrant` resets the whole-motion counters
`horizontalWholeCounter`/`verticalWholeCounter` (and the per-gesture
flags) but leaves the overflow counters `horizontalWholeOuterCounter`
and `swipeDownOffset` unchanged; those are only zeroed by the
non-dismiss path of the release settle. -/
theorem grant_counters (p : ImageZoomProps) (s : State) (touches : List Touch)
    (now : ℚ) :
    (onPanResponderGrant p s touches now).horizontalWholeOuterCounter
        = s.horizontalWholeOuterCounter ∧
    (onPanResponderGrant p s touches now).swipeDownOffset = s.swipeDownOffset ∧
    (onPanResponderGrant p s touches now).horizontalWholeCounter = 0 ∧
    (onPanResponderGrant p s touches now).verticalWholeCounter = 0 := by
  unfold onPanResponderGrant doubleClickZoomToggle
  split_ifs <;> (try simp) <;> (try split_ifs) <;> simp

/-! ## C5 -/

/-- C5: a pinch move processed with a zero recorded center offset never
changes `positionX` or `positionY`, whatever the scale change. -/
theorem pinch_center_zero_fixes_position (p : ImageZoomProps) (s : State) (dist : ℚ)
    (hx : s.centerDiffX = 0) (hy : s.centerDiffY = 0) :
    (onPanResponderMovePinch p s dist).positionX = s.positionX ∧
    (onPanResponderMovePinch p s dist).positionY = s.positionY := by
  unfold onPanResponderMovePinch
  split_ifs
  · exact ⟨rfl, rfl⟩
  · rcases h : s.zoomLastDistance with _ | lastDistance <;>
      simp [h, hx, hy]
  · exact ⟨rfl, rfl⟩

/-- C5 witness: a concrete pinch (recorded span 100, new span 140) from
the base state, whose center offset is (0,0), keeps the offset at 0. -/
theorem pinch_center_zero_fixes_position_witness :
    (onPanResponderMovePinch props0 { baseState with zoomLastDistance := some 100 }
        140).positionX
      = ({ baseState with zoomLastDistance := some 100 } : State).positionX :=
  (pinch_center_zero_fixes_position props0 _ 140 rfl rfl).1

/-! ## C4 -/

/-- C4 counterexample: starting from scale 3, the first toggle resets to
the identity and the second toggle zooms to scale 2, so a toggle pair
from an arbitrary state does not end at scale 1. -/
theorem doubleClickZoomToggle_pair_from_scale3 :
    (doubleClickZoomToggle props0
        (doubleClickZoomToggle props0 { baseState with scale := 3 })).scale ≠ 1 := by
  decide

/-- C4 amended: the first toggle from scale ≠ 1 resets to the identity
transform; from scale = 1 it sets scale 2 with the anchored-offset
formula, and a second toggle then returns to scale 1 and offset (0,0) —
so pairs are idempotent exactly when started at scale 1. -/
theorem doubleClickZoomToggle_pairs (p : ImageZoomProps) (s : State) :
    (s.scale ≠ 1 →
      (doubleClickZoomToggle p s).scale = 1 ∧
      (doubleClickZoomToggle p s).positionX = 0 ∧
      (doubleClickZoomToggle p s).positionY = 0) ∧
    (s.scale = 1 →
      (doubleClickZoomToggle p s).scale = 2 ∧
      (doubleClickZoomToggle p s).positionX
        = (p.cropWidth / 2 - s.doubleClickX) * (2 - s.scale) / 2 ∧
      (doubleClickZoomToggle p s).positionY
        = (p.cropHeight / 2 - s.doubleClickY) * (2 - s.scale) / 2 ∧
      (doubleClickZoomToggle p (doubleClickZoomToggle p s)).scale = 1 ∧
      (doubleClickZoomToggle p (doubleClickZoomToggle p s)).positionX = 0 ∧
      (doubleClickZoomToggle p (doubleClickZoomToggle p s)).positionY = 0) := by
  constructor
  · intro h
    have hc : s.scale > 1 ∨ s.scale < 1 := Or.symm (lt_or_gt_of_ne h)
    unfold doubleClickZoomToggle
    rw [if_pos hc]
    exact ⟨rfl, rfl, rfl⟩
  · intro h
    have hc : ¬(s.scale > 1 ∨ s.scale < 1) := by
      rw [h]; simp
    unfold doubleClickZoomToggle
    rw [if_neg hc]
    refine ⟨rfl, rfl, rfl, ?_⟩
    have h2 : ((2 : ℚ) > 1 ∨ (2 : ℚ) < 1) := by norm_num
    rw [if_pos h2]
    exact ⟨rfl, rfl, rfl⟩

/-- C4 witness: from the base state (scale 1, double-click point at the
origin), the first toggle reaches scale 2 and the toggle pair returns to
scale 1 with offset (0,0). -/
theorem doubleClickZoomToggle_pairs_witness :
    (doubleClickZoomToggle props0 baseState).scale = 2 ∧
    (doubleClickZoomToggle props0 (doubleClickZoomToggle props0 baseState)).scale = 1 ∧
    (doubleClickZoomToggle props0 (doubleClickZoomToggle props0 baseState)).positionX
      = 0 :=
  ⟨((doubleClickZoomToggle_pairs props0 baseState).2 rfl).1,
   ((doubleClickZoomToggle_pairs props0 baseState).2 rfl).2.2.2.1,
   ((doubleClickZoomToggle_pairs props0 baseState).2 rfl).2.2.2.2.1⟩

/-! ## C6 -/

/-- C6: a single-touch move keeps the horizontal overflow counter within
`[-maxOverflow, maxOverflow]`: any step through the horizontal pan
(including the epsilon nudge on hard clamp) re-caps the counter, and
steps that skip the horizontal handling leave it unchanged. -/
theorem moveSingle_overflow_bound (p : ImageZoomProps) (s : State) (dx dy : ℚ)
    (hM : 0 ≤ p.maxOverflow)
    (hpre : |s.horizontalWholeOuterCounter| ≤ p.maxOverflow) :
    |(onPanResponderMoveSingle p s dx dy).horizontalWholeOuterCounter|
      ≤ p.maxOverflow := by
  unfold onPanResponderMoveSingle
  split_ifs with h1 h2
  · exact hpre
  · apply panPhase_horizontalWholeOuterCounter_bound p _ _ _ hM
    rw [moveAccum_horizontalWholeOuterCounter]
    exact hpre
  · rw [moveAccum_horizontalWholeOuterCounter]
    exact hpre

/-- C6 witness: a concrete move from the base state under the sample
props keeps the overflow within the configured bound. -/
theorem moveSingle_overflow_bound_witness :
    |(onPanResponderMoveSingle props0 baseState 0 0).horizontalWholeOuterCounter|
      ≤ props0.maxOverflow :=
  moveSingle_overflow_bound props0 baseState 0 0
    (by norm_num [props0]) (by norm_num [baseState, props0])

/-! ## C2 -/

theorem moveSingle_swipeDownOffset_change (q : ImageZoomProps) (s : State) (dx dy : ℚ)
    (h : (onPanResponderMoveSingle q s dx dy).swipeDownOffset ≠ s.swipeDownOffset) :
    q.imageHeight * s.scale ≤ q.cropHeight ∧ q.enableSwipeDown = true ∧
      (onPanResponderMoveSingle q s dx dy).isHorizontalWrap = false := by
  unfold onPanResponderMoveSingle at h ⊢
  split_ifs at h ⊢ with h1 h2
  · exact absurd rfl h
  · have hacc : (moveAccum s dx dy).swipeDownOffset = s.swipeDownOffset :=
      moveAccum_swipeDownOffset s dx dy
    have key := panPhase_swipeDownOffset_change q (moveAccum s dx dy) _ _
      (fun e => h (e.trans hacc))
    refine ⟨?_, key.2.1, key.2.2⟩
    have k1 := key.1
    rwa [moveAccum_scale] at k1
  · exact absurd (moveAccum_swipeDownOffset s dx dy) h

/-- C2: with swipe-down enabled, a configured positive threshold and an
`onSwipeDown` callback supplied, the release settle fires the callback
exactly when the accumulated swipe-down offset exceeds the threshold;
and a single-touch move can change the swipe-down offset only while the
scaled image height fits the crop height, swipe-down is enabled and the
gesture is not flagged horizontal. -/
theorem swipeDown_fires_iff_threshold (p : ImageZoomProps)
    (hsd : p.enableSwipeDown = true) (hth : p.swipeDownThreshold > 0)
    (hcb : p.hasOnSwipeDown = true) :
    (∀ s : State, (panResponderReleaseResolve p s).firedSwipeDown = true
        ↔ s.swipeDownOffset > p.swipeDownThreshold) ∧
    (∀ (q : ImageZoomProps) (s : State) (dx dy : ℚ),
        (onPanResponderMoveSingle q s dx dy).swipeDownOffset ≠ s.swipeDownOffset →
        q.imageHeight * s.scale ≤ q.cropHeight ∧ q.enableSwipeDown = true ∧
          (onPanResponderMoveSingle q s dx dy).isHorizontalWrap = false) := by
  constructor
  · intro s
    unfold panResponderReleaseResolve
    by_cases hc : swipeDownDismissCond p s = true
    · rw [if_pos hc]
      unfold swipeDownDismissCond at hc
      simp only [Bool.and_eq_true, decide_eq_true_eq] at hc
      exact iff_of_true hcb hc.2
    · rw [if_neg hc]
      unfold swipeDownDismissCond at hc
      simp only [Bool.and_eq_true, decide_eq_true_eq, hsd, true_and, not_and] at hc
      have hng : ¬ s.swipeDownOffset > p.swipeDownThreshold := hc (ne_of_gt hth)
      constructor
      · intro hf
        exact absurd hf Bool.false_ne_true
      · intro hgt
        exact absurd hgt hng
  · intro q s dx dy hmove
    exact moveSingle_swipeDownOffset_change q s dx dy hmove

/-- C2 witness: with threshold 50 and an accumulated swipe-down offset of
100, the release settle fires the `onSwipeDown` callback. -/
theorem swipeDown_fires_iff_threshold_witness :
    (panResponderReleaseResolve
        { props0 with enableSwipeDown := true, swipeDownThreshold := 50,
                      hasOnSwipeDown := true }
        { baseState with swipeDownOffset := 100 }).firedSwipeDown = true :=
  ((swipeDown_fires_iff_threshold _ rfl (by norm_num [props0]) rfl).1 _).mpr
    (by norm_num [props0, baseState])

/-! ## C3 -/

/-- C3: a pinch move with a recorded previous span sets the scale to
`clamp(scale + (currentSpan - previousSpan)/200, minScale, maxScale)`. -/
theorem pinch_scale_clamped (p : ImageZoomProps) (s : State) (dist lastDistance : ℚ)
    (hdc : s.isDoubleClick = false) (hpz : p.pinchToZoom = true)
    (hlast : s.zoomLastDistance = some lastDistance)
    (hms : p.minScale ≤ p.maxScale) :
    (onPanResponderMovePinch p s dist).scale
      = min (max (s.scale + (dist - lastDistance) / 200) p.minScale) p.maxScale := by
  simp only [onPanResponderMovePinch, hdc, Bool.false_eq_true, if_false, hpz, if_true,
    hlast]
  simp only [min_def, max_def]
  split_ifs <;> linarith

/-- C3 witness: spans 100 then 140 at scale 1 with bounds [3/5, 10] give
scale exactly 6/5. -/
theorem pinch_scale_clamped_witness :
    (onPanResponderMovePinch props0 { baseState with zoomLastDistance := some 100 }
        140).scale
      = min (max ((1 : ℚ) + (140 - 100) / 200) (3/5)) 10 ∧
    min (max ((1 : ℚ) + (140 - 100) / 200) (3/5)) 10 = 6/5 :=
  ⟨pinch_scale_clamped props0 _ 140 100 rfl rfl rfl (by norm_num [props0]),
   by norm_num⟩

/-! ## C8 -/

/-- C8 counterexample: a single-touch move with accumulated motion of
only 3 units (below the 5-unit threshold on both axes) already sets
`isHorizontalWrap`, because the flag only requires `|dx| > |dy|` on the
move, not the threshold. -/
theorem moveSingle_flag_without_threshold :
    (onPanResponderMoveSingle props0
        { baseState with lastPositionX := some 0, lastPositionY := some 0 }
        3 0).isHorizontalWrap = true ∧
    |(onPanResponderMoveSingle props0
        { baseState with lastPositionX := some 0, lastPositionY := some 0 }
        3 0).horizontalWholeCounter| ≤ 5 ∧
    |(onPanResponderMoveSingle props0
        { baseState with lastPositionX := some 0, lastPositionY := some 0 }
        3 0).verticalWholeCounter| ≤ 5 := by
  norm_num [onPanResponderMoveSingle, moveAccum, panPhase, horizontalPan, verticalPan,
    horizontalOverflowAbsorb, clampOverflowValue, diffXOf, diffYOf, props0, baseState]

/-- C8 amended: the horizontal flag is set whenever the move has
`|dx| > |dy|` with pan enabled and no pending swipe-down offset —
independently of the 5-unit accumulated threshold — while exceeding that
threshold (on either axis) does cancel the long-press timer. -/
theorem moveSingle_horizontalWrap_flag (p : ImageZoomProps) (s : State) (dx dy : ℚ)
    (hdc : s.isDoubleClick = false) :
    ((onPanResponderMoveSingle p s dx dy).isHorizontalWrap = true ↔
      (s.isHorizontalWrap = true ∨
        (p.panToMove = true ∧ s.swipeDownOffset = 0 ∧
          |diffXOf s dx| > |diffYOf s dy|))) ∧
    ((|s.horizontalWholeCounter + diffXOf s dx| > 5 ∨
        |s.verticalWholeCounter + diffYOf s dy| > 5) →
      (onPanResponderMoveSingle p s dx dy).longPressPending = false) := by
  constructor
  · unfold onPanResponderMoveSingle
    rw [if_neg (by simp [hdc])]
    split_ifs with hp
    · unfold panPhase
      rw [verticalPan_isHorizontalWrap]
      split_ifs with hsd0 hxy
      · rw [horizontalPan_isHorizontalWrap]
        rw [moveAccum_swipeDownOffset] at hsd0
        simp [hp, hsd0, hxy]
      · rw [horizontalPan_isHorizontalWrap, moveAccum_isHorizontalWrap]
        rw [moveAccum_swipeDownOffset] at hsd0
        simp [hxy]
      · rw [moveAccum_isHorizontalWrap]
        rw [moveAccum_swipeDownOffset] at hsd0
        simp [hsd0]
    · rw [moveAccum_isHorizontalWrap]
      simp [hp]
  · intro hcancel
    have hlpp := moveAccum_longPressPending_cancel s dx dy hcancel
    unfold onPanResponderMoveSingle
    rw [if_neg (by simp [hdc])]
    split_ifs with hp
    · unfold panPhase
      rw [verticalPan_longPressPending]
      split_ifs with hsd0 hxy
      · rw [horizontalPan_longPressPending]
        exact hlpp
      · rw [horizontalPan_longPressPending]
        exact hlpp
      · exact hlpp
    · exact hlpp

/-- C8 witness: from a state with a recorded previous move, a move with
`dx = 7, dy = 0` sets the horizontal flag, and a move with `dx = 20`
(accumulated motion 20 > 5) cancels the long-press timer. -/
theorem moveSingle_horizontalWrap_flag_witness :
    (onPanResponderMoveSingle props0
        { baseState with lastPositionX := some 0, lastPositionY := some 0 }
        7 0).isHorizontalWrap = true ∧
    (onPanResponderMoveSingle props0
        { baseState with lastPositionX := some 0, lastPositionY := some 0 }
        20 0).longPressPending = false :=
  ⟨(moveSingle_horizontalWrap_flag props0 _ 7 0 rfl).1.mpr
      (Or.inr ⟨rfl, rfl, by norm_num [diffXOf, diffYOf]⟩),
   (moveSingle_horizontalWrap_flag props0 _ 20 0 rfl).2
      (Or.inl (by norm_num [diffXOf, baseState]))⟩

end ImageZoom
